import Mathlib

/-!
Verification of the RAG ingestion and retrieval pipeline of this repository
(`src/rag/service.py` and `src/rag/router.py`).

Python strings are sequences of Unicode code points; we model them as
`List Char` (abbreviated `Str`).  Machine-level details (embedding vectors,
network calls) belong to external collaborators and are modelled as opaque
inputs; everything algorithmic (splitting, windowing, hashing, namespace
normalization, control flow of the orchestrator) is translated directly from
the source.
-/

namespace Rag

/-- Python strings modelled as lists of Unicode code points. -/
abbrev Str := List Char

/-- Model of Python `str.split()` with no arguments: split on every whitespace
character and discard the empty pieces (so runs of whitespace act as one
separator and no empty tokens are produced). -/
def pySplit (l : Str) : List Str :=
  (l.splitOnP Char.isWhitespace).filter (fun w => !w.isEmpty)

/-- Model of Python `" ".join(ws)`. -/
def joinSpace (ws : List Str) : Str :=
  [' '].intercalate ws

/-- Model of Python `str.strip()`: drop leading and trailing whitespace. -/
def pyStrip (l : Str) : Str :=
  ((l.dropWhile Char.isWhitespace).reverse.dropWhile Char.isWhitespace).reverse

/-- Model of Python `str.lower()` per character, on the alphabet relevant to
`_normalize_namespace`: ASCII letters plus the accented Latin letters that
appear in Spanish class names. -/
def pyLower (c : Char) : Char :=
  if c = 'Á' then 'á' else if c = 'É' then 'é' else if c = 'Í' then 'í'
  else if c = 'Ó' then 'ó' else if c = 'Ú' then 'ú' else if c = 'Ñ' then 'ñ'
  else if c = 'Ü' then 'ü' else c.toLower

/-- Model of Python `str.isalnum()` per character.  Python's test is
Unicode-aware: accented Latin letters such as `'ñ'` and `'ü'` are alphabetic,
hence alphanumeric.  We model ASCII alphanumerics plus the accented Latin
letters relevant to this code base. -/
def pyIsAlnum (c : Char) : Bool :=
  c.isAlphanum ||
    (['á', 'é', 'í', 'ó', 'ú', 'ñ', 'ü', 'Á', 'É', 'Í', 'Ó', 'Ú', 'Ñ', 'Ü'] : List Char).contains c

/-- The space-to-underscore substitution `p.replace(" ", "_")` applied per
character (both sides are single characters). -/
def replaceSpace (c : Char) : Char :=
  if c = ' ' then '_' else c

/-- The accent-substitution loop of `_normalize_namespace`
(`for a, b in [("í","i"), ("á","a"), ("é","e"), ("ó","o"), ("ú","u")]`),
applied per character. -/
def stripAccent (c : Char) : Char :=
  if c = 'í' then 'i' else if c = 'á' then 'a' else if c = 'é' then 'e'
  else if c = 'ó' then 'o' else if c = 'ú' then 'u' else c

/-- Model of `_normalize_namespace(*parts)` (`src/rag/service.py` lines
313-319): join the truthy parts — each lowercased, stripped, with spaces
replaced by underscores — with `"_"`, replace the five accented vowels, keep
only the characters that are alphanumeric or in `"_-"`, and fall back to
`"default"` when nothing remains. -/
def normalizeNamespace (parts : List Str) : Str :=
  let pieces := (parts.filter (fun p => !p.isEmpty)).map
    (fun p => (pyStrip (p.map pyLower)).map replaceSpace)
  let joined := ['_'].intercalate pieces
  let rep := joined.map stripAccent
  let ns := rep.filter (fun c => pyIsAlnum c || c = '_' || c = '-')
  if ns.isEmpty then ("default" : String).data else ns

/-- The namespace `process_class_files` derives for a class
(`namespace = _normalize_namespace(f"clase_{id_clase}")`, lines 598-599). -/
def classNamespace (idClase : Str) : Str :=
  normalizeNamespace [("clase_" : String).data ++ idClase]

/-! ## The chunker (`_chunk_texts`, lines 322-386) -/

/-- Model of Python `range(0, n, step)` for `step ≥ 1` (every caller in the
source uses `step = max(tokens_per_chunk - chunk_overlap, 1)`). -/
def pyRange0 (n step : Nat) : List Nat :=
  (List.range ((n + step - 1) / step)).map (fun j => j * step)

/-- The token windows `toks[i : i + k]` for `i in range(0, len(toks), step)`,
shared by all three re-chunking paths of `_chunk_texts`. -/
def slidingWindows (toks : List α) (k step : Nat) : List (List α) :=
  (pyRange0 toks.length step).map (fun i => (toks.drop i).take k)

/-- Model of `_simple_token_split(text, tokens_per_chunk, overlap)`
(lines 371-382): whitespace tokens; a text of at most `tokens_per_chunk`
tokens is returned verbatim, otherwise each window is rejoined with single
spaces. -/
def simpleTokenSplit (text : Str) (tokensPerChunk overlap : Nat) : List Str :=
  let tokens := pySplit text
  if tokens.isEmpty then []
  else if tokens.length ≤ tokensPerChunk then [text]
  else
    let step := max (tokensPerChunk - overlap) 1
    (slidingWindows tokens tokensPerChunk step).map joinSpace

/-- Model of the whitespace fallback inside the tiktoken branch of
`_chunk_texts` (lines 348-353, taken when `enc is None`): window the
whitespace tokens and rejoin each window with single spaces.  Unlike
`_simple_token_split` there is no short-text early return. -/
def tokenRechunkWS (c : Str) (tokensPerChunk overlap : Nat) : List Str :=
  let toks := pySplit c
  let step := max (tokensPerChunk - overlap) 1
  (slidingWindows toks tokensPerChunk step).map joinSpace

/-- Model of the tiktoken encoder path of `_chunk_texts` (lines 356-366):
encode the fragment, window the token ids, decode each window.  The encoder
and decoder belong to the external tiktoken library and are passed in; the
`except` fallback around `enc.decode` models an external failure and is not
reachable for a total `decode`. -/
def tokenRechunkEnc (encode : Str → List Nat) (decode : List Nat → Str)
    (c : Str) (tokensPerChunk overlap : Nat) : List Str :=
  let toks := encode c
  if toks.isEmpty then []
  else
    let step := max (tokensPerChunk - overlap) 1
    (slidingWindows toks tokensPerChunk step).map decode

/-- The tokenization mode `_chunk_texts` runs under: tiktoken not importable
(`_TIKTOKEN_AVAILABLE = False`), tiktoken importable but no encoding obtained
(`enc is None`), or a concrete encoder/decoder pair (a tiktoken `Encoding`,
an external library value). -/
inductive TokMode where
  | noTiktoken : TokMode
  | wsFallback : TokMode
  | encPair (encode : Str → List Nat) (decode : List Nat → Str) : TokMode

/-- Model of `_chunk_texts(texts, chunk_size, chunk_overlap,
tokens_per_chunk)` (lines 322-386).  The stage-1
`RecursiveCharacterTextSplitter` is an external langchain component; it is
passed in as `splitText`, receiving the `chunk_size` and `chunk_overlap` it
was constructed with and the `"\n\n"`-joined input text.  The tiktoken-branch
paths skip fragments that are empty or whitespace-only
(`if not c or not c.strip(): continue`); `_simple_token_split` returns `[]`
for such fragments on its own. -/
def chunkTexts (mode : TokMode) (splitText : Nat → Nat → Str → List Str)
    (texts : List Str) (chunkSize chunkOverlap tokensPerChunk : Nat) : List Str :=
  if texts.isEmpty then []
  else
    let joined := ('\n' :: '\n' :: []).intercalate texts
    let charChunks := splitText chunkSize chunkOverlap joined
    match mode with
    | TokMode.encPair encode decode =>
        charChunks.flatMap (fun c =>
          if c.isEmpty || (pyStrip c).isEmpty then []
          else tokenRechunkEnc encode decode c tokensPerChunk chunkOverlap)
    | TokMode.wsFallback =>
        charChunks.flatMap (fun c =>
          if c.isEmpty || (pyStrip c).isEmpty then []
          else tokenRechunkWS c tokensPerChunk chunkOverlap)
    | TokMode.noTiktoken =>
        charChunks.flatMap (fun c => simpleTokenSplit c tokensPerChunk chunkOverlap)

/-- Number of tokens of a produced chunk, as counted by the tokenizer that
produced it: the tiktoken encoding in the encoder path, whitespace tokens in
the two fallback paths. -/
def tokenCount (mode : TokMode) (c : Str) : Nat :=
  match mode with
  | TokMode.encPair encode _ => (encode c).length
  | _ => (pySplit c).length

/-! ## Content identity (`_deterministic_id`, lines 389-390)

`_deterministic_id(text)` is `sha1(text.encode("utf-8")).hexdigest()`.
UTF-8 and SHA-1 (FIPS 180-4) are implemented below over byte values
(`Nat` below 256) so the identifier function is fully executable. -/

/-- UTF-8 encoding of one code point (RFC 3629), as byte values. -/
def utf8Char (c : Char) : List Nat :=
  let n := c.toNat
  if n < 128 then [n]
  else if n < 2048 then [192 + n / 64, 128 + n % 64]
  else if n < 65536 then [224 + n / 4096, 128 + n / 64 % 64, 128 + n % 64]
  else [240 + n / 262144, 128 + n / 4096 % 64, 128 + n / 64 % 64, 128 + n % 64]

/-- Model of Python `text.encode("utf-8")`. -/
def utf8 (s : Str) : List Nat :=
  s.flatMap utf8Char

/-- Truncation to 32 bits. -/
def w32 (n : Nat) : Nat := n % 4294967296

/-- 32-bit left rotation by `s` places. -/
def rotl32 (s n : Nat) : Nat :=
  w32 (n * 2 ^ s) + n % 4294967296 / 2 ^ (32 - s)

/-- 32-bit bitwise complement (for a value below `2 ^ 32`). -/
def not32 (n : Nat) : Nat := 4294967295 - n % 4294967296

/-- Big-endian byte decomposition of `n` into `count` bytes. -/
def beBytes (count n : Nat) : List Nat :=
  (List.range count).reverse.map (fun i => n / 256 ^ i % 256)

/-- Big-endian word value of a byte list. -/
def beWord (bs : List Nat) : Nat :=
  bs.foldl (fun a b => a * 256 + b) 0

/-- SHA-1 message padding: append `0x80`, zero bytes up to 56 mod 64, then
the 64-bit big-endian bit length. -/
def sha1Pad (msg : List Nat) : List Nat :=
  let zeros := (64 + 56 - (msg.length + 1) % 64) % 64
  msg ++ 128 :: List.replicate zeros 0 ++ beBytes 8 (msg.length * 8)

/-- Split a byte list into 64-byte blocks. -/
def blocks64 (l : List Nat) : List (List Nat) :=
  if l.isEmpty then []
  else l.take 64 :: blocks64 (l.drop 64)
termination_by l.length
decreasing_by
  simp only [List.length_drop]
  cases l with
  | nil => simp [List.isEmpty] at *
  | cons a l => simp; omega

/-- The sixteen 32-bit big-endian words of one 64-byte block. -/
def words16 (block : List Nat) : List Nat :=
  (List.range 16).map (fun i => beWord ((block.drop (4 * i)).take 4))

/-- SHA-1 message schedule: extend sixteen words to eighty via
`w[i] = rotl1 (w[i-3] xor w[i-8] xor w[i-14] xor w[i-16])`. -/
def sha1Schedule (ws : List Nat) : List Nat :=
  (List.range 64).foldl
    (fun acc _ =>
      let n := acc.length
      acc ++ [rotl32 1 ((acc.getD (n - 3) 0) ^^^ (acc.getD (n - 8) 0) ^^^
        (acc.getD (n - 14) 0) ^^^ (acc.getD (n - 16) 0))])
    ws

/-- One SHA-1 round: round `i` with schedule word `wi`. -/
def sha1Round (st : Nat × Nat × Nat × Nat × Nat) (iw : Nat × Nat) :
    Nat × Nat × Nat × Nat × Nat :=
  let (a, b, c, d, e) := st
  let (i, wi) := iw
  let f :=
    if i < 20 then (b &&& c) ||| (not32 b &&& d)
    else if i < 40 then b ^^^ c ^^^ d
    else if i < 60 then (b &&& c) ||| (b &&& d) ||| (c &&& d)
    else b ^^^ c ^^^ d
  let k :=
    if i < 20 then 1518500249
    else if i < 40 then 1859775393
    else if i < 60 then 2400959708
    else 3395469782
  (w32 (rotl32 5 a + f + e + k + wi), a, rotl32 30 b, c, d)

/-- SHA-1 compression of one 64-byte block into the running state. -/
def sha1Compress (h : Nat × Nat × Nat × Nat × Nat) (block : List Nat) :
    Nat × Nat × Nat × Nat × Nat :=
  let ws := sha1Schedule (words16 block)
  let (a, b, c, d, e) := ws.enum.foldl sha1Round h
  let (h0, h1, h2, h3, h4) := h
  (w32 (h0 + a), w32 (h1 + b), w32 (h2 + c), w32 (h3 + d), w32 (h4 + e))

/-- SHA-1 digest of a byte message, as twenty bytes. -/
def sha1Bytes (msg : List Nat) : List Nat :=
  let init : Nat × Nat × Nat × Nat × Nat :=
    (1732584193, 4023233417, 2562383102, 271733878, 3285377520)
  let (h0, h1, h2, h3, h4) := (blocks64 (sha1Pad msg)).foldl sha1Compress init
  beBytes 4 h0 ++ beBytes 4 h1 ++ beBytes 4 h2 ++ beBytes 4 h3 ++ beBytes 4 h4

/-- Lowercase hexadecimal digit. -/
def hexDigit (n : Nat) : Char :=
  ("0123456789abcdef" : String).data.getD n '0'

/-- Lowercase hexadecimal rendering of a byte list (`hexdigest()`). -/
def hexOfBytes (bs : List Nat) : Str :=
  bs.flatMap (fun b => [hexDigit (b / 16), hexDigit (b % 16)])

/-- Model of `_deterministic_id(text)` (lines 389-390):
`sha1(text.encode("utf-8")).hexdigest()`. -/
def deterministicId (text : Str) : Str :=
  hexOfBytes (sha1Bytes (utf8 text))

/-! ## Index/namespace manager and vector-store adapter
(`ensure_index_and_namespace` lines 407-467, `add_documents_to_index`
lines 153-214) -/

/-- Observable calls made against the external embedding provider and vector
backend during one operation: `build_vector_store` invocations, explicit
embedding batches, and vector writes (`vs.add_documents` or `idx.upsert`). -/
structure Effects where
  storesBuilt : Nat
  embedBatches : Nat
  upserts : Nat
deriving Repr, DecidableEq

/-- No backend interaction at all. -/
def noEffects : Effects := ⟨0, 0, 0⟩

/-- Environment facts the service module observes.  `createIndexAvailable`
models whether `from app import create_index` succeeded (in this repository
there is no `app` module, so it is `false` at runtime, but the code guards
both cases).  `describedDim` is the index dimension the best-effort
introspection `_get_index_dimension` reports, `none` when no introspection
call succeeds.  `docClassAvailable` models whether the langchain `Document`
class imported, selecting the rich write path or the raw embed-plus-upsert
fallback in `add_documents_to_index`. -/
structure Backend where
  createIndexAvailable : Bool
  describedDim : Option Nat
  docClassAvailable : Bool

/-- Decimal rendering of a natural number, as Python's f-string does. -/
def natStr (n : Nat) : Str :=
  (Nat.repr n).data

/-- The `RuntimeError` message raised on a dimension mismatch
(lines 453-456): it names the actual and the expected dimension. -/
def mismatchMsg (indexName : Str) (actual expected : Nat) : Str :=
  ("Index '" : String).data ++ indexName ++
    ("' dimension mismatch: index has dimension " : String).data ++
    natStr actual ++ (" but expected " : String).data ++ natStr expected ++
    (". Either set RAG_DIM to the embedding size (e.g. 1536) or recreate the index with the correct dimension/embedding model." : String).data

/-- Model of `ensure_index_and_namespace(index_name, namespace, dimension)`
(lines 407-467).  The index-creation attempt and the namespace seeding are
best-effort: their exceptions are caught and logged (`logger.debug`), so the
single observable outcome of this function is the dimension-mismatch
`RuntimeError`, raised when the introspected dimension is known and differs
from the requested one. -/
def ensureIndexAndNamespace (b : Backend) (indexName : Str)
    (_nsOpt : Option Str) (dimension : Nat) : Except Str Unit :=
  match b.describedDim with
  | some actual =>
      if actual ≠ dimension then
        Except.error (mismatchMsg indexName actual dimension)
      else Except.ok ()
  | none => Except.ok ()

/-- Per-chunk metadata built by `process_class_files` (line 592). -/
structure MetaEntry where
  source : Str
  chunkIndex : Nat
  classId : Str
  text : Str

/-- Model of `add_documents_to_index(index_name, texts, metadatas, ids,
namespace)` (lines 153-214).  On empty `texts` it returns `[]` before any
backend interaction.  Otherwise it builds (or fetches) the vector store,
defaults missing ids to fresh UUIDs, and writes once: through
`vs.add_documents` when the `Document` class is available, else through one
`embed_documents` batch plus one `idx.upsert`.  The write payload (texts,
metadata, namespace) is not modelled: no claim observes it, only the
returned ids and the calls made. -/
def addDocumentsToIndex (b : Backend) (texts : List Str)
    (_metadatas : Option (List MetaEntry)) (ids : Option (List Str))
    (_nsOpt : Option Str) (uuidSupply : Nat → Str) : List Str × Effects :=
  if texts.isEmpty then ([], noEffects)
  else
    let ids := match ids with
      | some l => l
      | none => (List.range texts.length).map uuidSupply
    if b.docClassAvailable then (ids, ⟨1, 0, 1⟩)
    else (ids, ⟨1, 1, 1⟩)

/-! ## Class ingestion orchestrator (`process_class_files`, lines 537-604) -/

/-- The result dict of `process_class_files`: `{"ok": False, "reason": r}`
or `{"ok": True, "index": i, "namespace": ns, "upserted": n}`. -/
inductive ProcOutcome where
  | failed (reason : Str) : ProcOutcome
  | succeeded (index : Str) (ns : Str) (upserted : Nat) : ProcOutcome
deriving DecidableEq

/-- The chunk-id assignment of `process_class_files` (lines 593-596):
content hashes under `dedupe=True`, else one fresh `uuid4()` per chunk.
The `uuidSupply` argument models the stream of values successive `uuid4()`
calls produce. -/
def assignIds (dedupe : Bool) (chunks : List Str) (uuidSupply : Nat → Str) :
    List Str :=
  if dedupe then chunks.map deterministicId
  else (List.range chunks.length).map uuidSupply

/-- The per-chunk metadata list of `process_class_files` (line 592). -/
def classMetadatas (sources : List Str) (idClase : Str) (chunks : List Str) :
    List MetaEntry :=
  (chunks.enum).map (fun p =>
    ⟨sources.getD p.fst [], p.fst, idClase, p.snd.take 2000⟩)

/-- Model of `process_class_files(id_clase, ...)` (lines 537-604).
Listing and downloading the class's PDFs from S3 and extracting their text
involve external collaborators (boto3, pypdf); their accumulated result
enters as `allTexts` and `sources` (empty when the class has no readable
documents).  Control flow: no texts → `{ok: False, reason:
"no_texts_extracted"}`; no chunks → `{ok: False, reason: "no_chunks"}`;
otherwise metadata, ids and the normalized namespace are computed, the
index/namespace is validated (a mismatch there propagates as an exception
before any write), and the chunks are upserted. -/
def processClassFiles (b : Backend) (mode : TokMode)
    (splitText : Nat → Nat → Str → List Str)
    (allTexts sources : List Str) (idClase indexName : Str)
    (chunkSize chunkOverlap tokensPerChunk : Nat) (dedupe : Bool)
    (dimension : Nat) (uuidSupply : Nat → Str) :
    Except Str ProcOutcome × Effects :=
  if allTexts.isEmpty then
    (Except.ok (ProcOutcome.failed ("no_texts_extracted" : String).data), noEffects)
  else
    let chunks := chunkTexts mode splitText allTexts chunkSize chunkOverlap tokensPerChunk
    if chunks.isEmpty then
      (Except.ok (ProcOutcome.failed ("no_chunks" : String).data), noEffects)
    else
      let metadatas := classMetadatas sources idClase chunks
      let ids := assignIds dedupe chunks uuidSupply
      let ns := classNamespace idClase
      match ensureIndexAndNamespace b indexName (some ns) dimension with
      | Except.error e => (Except.error e, noEffects)
      | Except.ok _ =>
          let res :=
            addDocumentsToIndex b chunks (some metadatas) (some ids) (some ns) uuidSupply
          (Except.ok (ProcOutcome.succeeded indexName ns res.1.length), res.2)

/-! ## Retriever (`retrieve_top_k_documents`, lines 607-637) -/

/-- One raw match as normalized by `similarity_query`: a dict with `id`,
`score` and `metadata` keys, on which `retrieve_top_k_documents` also probes
top-level `text` and `document` keys.  A key that is absent or holds `None`
is `none`; `score` is an opaque payload.  When `metadata` is absent the code
substitutes `{}` (`meta = m.get("metadata") or {}`), which is observably the
same as all three metadata fields being `none`. -/
structure RawMatch where
  matchId : Option Str
  score : Option Int
  metaText : Option Str
  metaContent : Option Str
  metaPageContent : Option Str
  topText : Option Str
  topDocument : Option Str

/-- Python `a or b` on an optional string: `None` and `""` are falsy. -/
def pyOr (a b : Option Str) : Option Str :=
  match a with
  | some s => if s.isEmpty then b else some s
  | none => b

/-- Python truthiness of an optional string. -/
def pyTruthy (a : Option Str) : Bool :=
  match a with
  | some s => !s.isEmpty
  | none => false

/-- The display-text resolution of `retrieve_top_k_documents` (lines
615-622): `meta.get("text") or meta.get("content") or
meta.get("page_content")`, then, if that is falsy, `m.get("text") or
m.get("document") or None`. -/
def resolveText (m : RawMatch) : Option Str :=
  let text := pyOr (pyOr m.metaText m.metaContent) m.metaPageContent
  if !pyTruthy text then pyOr (pyOr m.topText m.topDocument) none
  else text

/-- One entry of the list `retrieve_top_k_documents` returns (the `metadata`
pass-through is not modelled; no claim observes it). -/
structure RetrievedDoc where
  docId : Option Str
  score : Option Int
  text : Option Str

/-- Model of `retrieve_top_k_documents` (lines 607-637) downstream of the
similarity query: each raw match of the external vector backend is mapped to
an output dict with the resolved display text. -/
def retrieveTopKDocuments (ms : List RawMatch) : List RetrievedDoc :=
  ms.map (fun m => ⟨m.matchId, m.score, resolveText m⟩)

/-- The candidate fields the specification names for text resolution, in
order: metadata `text`, `content`, `page_content`, then the top-level `text`
and `document` fields of the raw match. -/
def candidateFields (m : RawMatch) : List (Option Str) :=
  [m.metaText, m.metaContent, m.metaPageContent, m.topText, m.topDocument]

/-! ## Router (`src/rag/router.py`)

The `/rag/ensure-index` and `/rag/namespace` handlers call
`rag_service.ensure_index`, `rag_service.ensure_namespace` and
`rag_service.delete_namespace`.  Python resolves these as attribute lookups
on the service module at call time; a missing attribute raises
`AttributeError`, which the handlers' `except Exception` turns into an HTTP
500 response. -/

/-- Every module-level name of `src/rag/service.py` an attribute lookup can
find: its imports, module globals and function definitions, in source order. -/
def ragServiceAttrs : List String :=
  ["annotations", "os", "List", "Optional", "Dict", "Any", "uuid4", "sha1",
   "Pinecone", "ServerlessSpec", "load_dotenv", "find_dotenv",
   "OpenAIEmbeddings", "PineconeVectorStore", "Document",
   "RecursiveCharacterTextSplitter", "tiktoken", "_TIKTOKEN_AVAILABLE",
   "CustomPDFLoader", "create_index", "logging", "logger", "get_aws_client",
   "aws", "tempfile", "shutil", "_PC", "_VECTOR_STORES", "init_pinecone",
   "get_index", "create_namespace", "build_vector_store",
   "add_documents_to_index", "delete_from_index", "list_indices",
   "similarity_query", "DEFAULT_INDEX", "DEFAULT_DIM", "rag_init_pinecone",
   "rag_create_namespace", "rag_list_indices", "rag_add_documents",
   "rag_similarity_query", "_normalize_namespace", "_chunk_texts",
   "_deterministic_id", "extract_pdf_texts", "ensure_index_and_namespace",
   "process_pdf_collection", "process_class_files",
   "retrieve_top_k_documents", "__all__"]

/-- Attribute lookup `getattr(rag_service, name)`: `none` models the
`AttributeError` a missing attribute raises. -/
def serviceAttr (name : String) : Option String :=
  if ragServiceAttrs.contains name then some name else none

/-- Outcome of one request as the FastAPI handler reports it. -/
inductive HandlerResult where
  | ok : HandlerResult
  | httpError (status : Nat) : HandlerResult
deriving DecidableEq

/-- Model of the `POST /rag/ensure-index` handler (`router.py` lines 10-18):
it resolves `rag_service.ensure_index` (and, when the request carries a
namespace, `rag_service.ensure_namespace`) and answers
`{"ok": True, ...}`; any exception becomes `HTTPException(500)`.  The
success branch is unreachable in this repository — the service module
defines no `ensure_index` — and stands for the `return` the handler would
then execute. -/
def ensureIndexHandler (hasNamespace : Bool) : HandlerResult :=
  match serviceAttr "ensure_index" with
  | none => HandlerResult.httpError 500
  | some _ =>
      if hasNamespace then
        match serviceAttr "ensure_namespace" with
        | none => HandlerResult.httpError 500
        | some _ => HandlerResult.ok
      else HandlerResult.ok

/-- Model of the `DELETE /rag/namespace` handler (`router.py` lines 47-53):
it resolves `rag_service.delete_namespace` and returns its result; any
exception becomes `HTTPException(500)`.  The success branch is unreachable
in this repository. -/
def deleteNamespaceHandler : HandlerResult :=
  match serviceAttr "delete_namespace" with
  | none => HandlerResult.httpError 500
  | some _ => HandlerResult.ok

/-! ## Lemmas about whitespace tokenization -/

/-- No piece produced by `splitOnP` contains a separator. -/
theorem mem_splitOnP_no_sep {α : Type} {p : α → Bool} :
    ∀ (l : List α), ∀ w ∈ l.splitOnP p, ∀ c ∈ w, p c = false := by
  intro l
  induction l with
  | nil =>
      intro w hw c hc
      rw [List.splitOnP_nil] at hw
      simp only [List.mem_singleton] at hw
      subst hw
      simp at hc
  | cons x xs ih =>
      intro w hw c hc
      rw [List.splitOnP_cons] at hw
      by_cases hx : p x = true
      · rw [if_pos hx] at hw
        rcases List.mem_cons.mp hw with h | h
        · subst h; simp at hc
        · exact ih w h c hc
      · rw [if_neg hx] at hw
        cases hsp : xs.splitOnP p with
        | nil => exact absurd hsp (List.splitOnP_ne_nil p xs)
        | cons h t =>
            rw [hsp] at hw
            simp only [List.modifyHead] at hw
            rcases List.mem_cons.mp hw with h1 | h1
            · subst h1
              rcases List.mem_cons.mp hc with rfl | hc2
              · exact Bool.eq_false_iff.mpr hx
              · exact ih h (hsp ▸ List.mem_cons_self h t) c hc2
            · exact ih w (hsp ▸ List.mem_cons_of_mem h h1) c hc

/-- Tokens produced by `pySplit` are non-empty and contain no whitespace. -/
theorem pySplit_words (l : Str) :
    ∀ w ∈ pySplit l, w ≠ [] ∧ ∀ c ∈ w, c.isWhitespace = false := by
  intro w hw
  unfold pySplit at hw
  rcases List.mem_filter.mp hw with ⟨hmem, hne⟩
  refine ⟨?_, mem_splitOnP_no_sep l w hmem⟩
  intro hnil
  subst hnil
  simp at hne

/-- Splitting is a left inverse of joining with a separator, for non-empty
lists of separator-free pieces. -/
theorem splitOnP_intercalate_eq {α : Type} (p : α → Bool) (sep : α)
    (hsep : p sep = true) :
    ∀ (ws : List (List α)), ws ≠ [] → (∀ w ∈ ws, ∀ c ∈ w, p c = false) →
      ([sep].intercalate ws).splitOnP p = ws := by
  intro ws
  induction ws with
  | nil => intro h; exact absurd rfl h
  | cons w rest ih =>
      intro _ hw
      cases rest with
      | nil =>
          have hj : [sep].intercalate [w] = w := by
            simp [List.intercalate]
          rw [hj]
          exact List.splitOnP_eq_single p w (fun c hc => by
            simp [hw w (List.mem_singleton_self w) c hc])
      | cons w2 rest2 =>
          have hj : [sep].intercalate (w :: w2 :: rest2) =
              w ++ sep :: [sep].intercalate (w2 :: rest2) := by
            simp [List.intercalate, List.intersperse]
          rw [hj]
          rw [List.splitOnP_first p w (fun c hc => by
              simp [hw w (List.mem_cons_self w _) c hc]) sep hsep]
          rw [ih (List.cons_ne_nil w2 rest2)
            (fun v hv c hc => hw v (List.mem_cons_of_mem w hv) c hc)]

/-- Re-splitting the space-joined tokens recovers them exactly, provided each
token is non-empty and whitespace-free (as `pySplit` tokens always are). -/
theorem pySplit_joinSpace (ws : List Str)
    (hw : ∀ w ∈ ws, w ≠ [] ∧ ∀ c ∈ w, c.isWhitespace = false) :
    pySplit (joinSpace ws) = ws := by
  cases ws with
  | nil => simp [pySplit, joinSpace, List.intercalate]
  | cons w rest =>
      unfold pySplit joinSpace
      rw [splitOnP_intercalate_eq Char.isWhitespace ' ' (by decide) (w :: rest)
        (List.cons_ne_nil w rest)
        (fun v hv c hc => (hw v hv).2 c hc)]
      rw [List.filter_eq_self.mpr]
      intro v hv
      cases v with
      | nil => exact absurd rfl (hw [] hv).1
      | cons a t => simp [List.isEmpty]

/-! ## Lemmas about the token windows -/

/-- Number of windows the sliding pass produces. -/
theorem slidingWindows_length (toks : List α) (k step : Nat) :
    (slidingWindows toks k step).length = (toks.length + step - 1) / step := by
  simp [slidingWindows, pyRange0]

/-- The `j`-th window is `toks[j * step : j * step + k]`. -/
theorem slidingWindows_get (toks : List α) (k step j : Nat)
    (h : j < (slidingWindows toks k step).length) :
    (slidingWindows toks k step).get ⟨j, h⟩ = (toks.drop (j * step)).take k := by
  simp [slidingWindows, pyRange0]

/-- Every window holds at most `k` tokens. -/
theorem slidingWindows_size_le (toks : List α) (k step : Nat) :
    ∀ w ∈ slidingWindows toks k step, w.length ≤ k := by
  intro w hw
  rcases List.mem_map.mp hw with ⟨i, _, rfl⟩
  simp

/-- Every element of a window is an element of the token list. -/
theorem slidingWindows_subset (toks : List α) (k step : Nat) :
    ∀ w ∈ slidingWindows toks k step, ∀ v ∈ w, v ∈ toks := by
  intro w hw v hv
  rcases List.mem_map.mp hw with ⟨i, _, rfl⟩
  exact List.drop_subset i toks (List.take_subset k _ hv)

/-- A non-empty token list that fits within one step yields a single window,
equal to the whole list when it also fits in `k`. -/
theorem slidingWindows_single (toks : List α) (k step : Nat)
    (h0 : toks ≠ []) (hn : toks.length ≤ step)
    (hk : toks.length ≤ k) :
    slidingWindows toks k step = [toks] := by
  have hlen : 0 < toks.length := List.length_pos.mpr h0
  have hone : (toks.length + step - 1) / step = 1 := by
    apply Nat.div_eq_of_lt_le <;> omega
  unfold slidingWindows pyRange0
  rw [hone]
  have h1 : List.range 1 = [0] := rfl
  rw [h1]
  simp [List.take_of_length_le hk]

/-! ## Lemmas about Python truthiness chains -/

/-- Python's `or` on optional strings is associative. -/
theorem pyOr_assoc (a b c : Option Str) :
    pyOr (pyOr a b) c = pyOr a (pyOr b c) := by
  cases a with
  | none => rfl
  | some s => by_cases hs : s.isEmpty <;> simp [pyOr, hs]

/-- The pattern `x = chain; if not x: x = fallback` is `chain or fallback`. -/
theorem pyOr_eq_ite (t x : Option Str) :
    pyOr t x = if !pyTruthy t then x else t := by
  cases t with
  | none => rfl
  | some s => by_cases hs : s.isEmpty <;> simp [pyOr, pyTruthy, hs]

/-- A right fold of Python `or` over candidates picks the first non-empty
present value, and `none` when there is none. -/
theorem pyOr_fold_find (l : List (Option Str)) :
    l.foldr pyOr none = (l.filterMap id).find? (fun s => !s.isEmpty) := by
  induction l with
  | nil => rfl
  | cons a t ih =>
      cases a with
      | none => simpa [pyOr] using ih
      | some s =>
          by_cases hs : s.isEmpty
          · simp [pyOr, hs, List.find?, ih]
          · simp [pyOr, hs, List.find?]

/-- The resolution code is the five-way Python `or` chain over the candidate
fields. -/
theorem resolveText_eq_fold (m : RawMatch) :
    resolveText m = (candidateFields m).foldr pyOr none := by
  unfold resolveText candidateFields
  rw [← pyOr_eq_ite]
  simp only [List.foldr, pyOr_assoc]

/-! ## Claim theorems -/

/-- C8: on empty input the pipeline reports structured emptiness rather than
erroring: `_chunk_texts` applied to an empty text-block list returns the
empty list, and `process_class_files` for a class from which no text was
extracted returns `{ok: False, reason: "no_texts_extracted"}` without
raising and without any backend interaction. -/
theorem empty_input_is_structured (mode : TokMode)
    (splitText : Nat → Nat → Str → List Str) (cs ov k : Nat) (b : Backend)
    (sources : List Str) (idClase indexName : Str) (dedupe : Bool)
    (dim : Nat) (uuidSupply : Nat → Str) :
    chunkTexts mode splitText [] cs ov k = [] ∧
    processClassFiles b mode splitText [] sources idClase indexName cs ov k
        dedupe dim uuidSupply =
      (Except.ok (ProcOutcome.failed ("no_texts_extracted" : String).data),
        noEffects) :=
  ⟨rfl, rfl⟩

/-- C10: `add_documents_to_index` with an empty texts list returns the empty
list immediately: no vector store is built, no embedding batch is computed
and no upsert is performed, so the backend's state is unchanged. -/
theorem add_documents_empty_noop (b : Backend)
    (metadatas : Option (List MetaEntry)) (ids : Option (List Str))
    (nsOpt : Option Str) (uuidSupply : Nat → Str) :
    addDocumentsToIndex b [] metadatas ids nsOpt uuidSupply =
      ([], ⟨0, 0, 0⟩) :=
  rfl

/-- C4 (code bug): the `/rag/ensure-index` and `/rag/namespace` handlers call
`rag_service.ensure_index`, `rag_service.ensure_namespace` and
`rag_service.delete_namespace`, but no attribute of those names exists in
the service module, so every request to these endpoints fails with HTTP 500
instead of returning a success result. -/
theorem router_service_ops_missing :
    (∀ hasNamespace, ensureIndexHandler hasNamespace =
      HandlerResult.httpError 500) ∧
    deleteNamespaceHandler = HandlerResult.httpError 500 ∧
    ¬ ("ensure_index" ∈ ragServiceAttrs) ∧
    ¬ ("ensure_namespace" ∈ ragServiceAttrs) ∧
    ¬ ("delete_namespace" ∈ ragServiceAttrs) := by
  refine ⟨fun h => ?_, rfl, by decide, by decide, by decide⟩
  cases h <;> rfl

/-- C2: with `dedupe=true` every chunk's id is the SHA-1 hex digest of the
chunk text's UTF-8 encoding; the identifier is a pure function of the text,
so repeated calls — in the same process or after a restart — and chunks with
identical text receive the identical id.  With `dedupe=false` each chunk
receives a fresh id from the UUID stream, and distinct draws give pairwise
distinct ids. -/
theorem chunk_identity :
    (∀ t : Str, deterministicId t = hexOfBytes (sha1Bytes (utf8 t))) ∧
    (∀ t u : Str, t = u → deterministicId t = deterministicId u) ∧
    (∀ (chunks : List Str) (uuidSupply : Nat → Str),
      assignIds true chunks uuidSupply = chunks.map deterministicId) ∧
    (∀ (chunks : List Str) (uuidSupply : Nat → Str),
      Function.Injective uuidSupply →
      (assignIds false chunks uuidSupply).length = chunks.length ∧
      (assignIds false chunks uuidSupply).Nodup) := by
  refine ⟨fun t => rfl, fun t u h => congrArg deterministicId h,
    fun chunks supply => by simp [assignIds], fun chunks supply hinj => ?_⟩
  constructor
  · simp [assignIds]
  · simp only [assignIds, if_neg Bool.false_ne_true]
    exact (List.nodup_range chunks.length).map hinj

/-- Witness for C2 at concrete inputs: identical text yields the identical
id, and a fresh injective UUID stream yields pairwise distinct ids. -/
theorem chunk_identity_witness :
    deterministicId ("abc" : String).data = deterministicId ("abc" : String).data ∧
    (assignIds false [("a" : String).data, ("b" : String).data]
      (fun n => List.replicate n 'u')).Nodup := by
  have h := chunk_identity
  refine ⟨h.2.1 _ _ rfl, (h.2.2.2 _ (fun n => List.replicate n 'u')
    (fun a b hab => by simpa using congrArg List.length hab)).2⟩

/-- C9: for every match returned by `retrieve_top_k_documents`, the display
text is the first non-empty value among, in order, the metadata `text`,
`content` and `page_content` fields and the top-level `text` and `document`
fields of the raw match, and `None` when no such value is present. -/
theorem retrieved_text_resolution (ms : List RawMatch) :
    (retrieveTopKDocuments ms).map (fun d => d.text) =
      ms.map (fun m =>
        ((candidateFields m).filterMap id).find? (fun s => !s.isEmpty)) := by
  unfold retrieveTopKDocuments
  rw [List.map_map]
  apply List.map_congr_left
  intro m _
  exact (resolveText_eq_fold m).trans (pyOr_fold_find (candidateFields m))

/-- C1: when the index's actual configured dimension is determinable and
differs from the requested dimension, `ensure_index_and_namespace` raises an
error whose message names both the actual and the expected value, and an
ingestion run through `process_class_files` against such an index performs
zero backend calls — in particular zero upserts — whatever its other inputs. -/
theorem dimension_mismatch_fatal (b : Backend) (indexName : Str)
    (nsOpt : Option Str) (dim actual : Nat)
    (hdim : b.describedDim = some actual) (hne : actual ≠ dim) :
    ensureIndexAndNamespace b indexName nsOpt dim =
      Except.error (mismatchMsg indexName actual dim) ∧
    (∃ u v w : Str, mismatchMsg indexName actual dim =
      u ++ natStr actual ++ v ++ natStr dim ++ w) ∧
    (∀ mode splitText allTexts sources idClase cs ov k dd uuidSupply,
      (processClassFiles b mode splitText allTexts sources idClase indexName
        cs ov k dd dim uuidSupply).2 = noEffects) := by
  have hens : ensureIndexAndNamespace b indexName nsOpt dim =
      Except.error (mismatchMsg indexName actual dim) := by
    unfold ensureIndexAndNamespace
    rw [hdim]
    exact if_pos hne
  refine ⟨hens, ?_, ?_⟩
  · refine ⟨("Index '" : String).data ++ indexName ++
      ("' dimension mismatch: index has dimension " : String).data,
      (" but expected " : String).data,
      (". Either set RAG_DIM to the embedding size (e.g. 1536) or recreate the index with the correct dimension/embedding model." : String).data,
      ?_⟩
    simp [mismatchMsg, List.append_assoc]
  · intro mode splitText allTexts sources idClase cs ov k dd uuidSupply
    unfold processClassFiles
    by_cases h1 : allTexts.isEmpty
    · simp [h1]
    · simp only [h1, Bool.false_eq_true, if_false]
      by_cases h2 : (chunkTexts mode splitText allTexts cs ov k).isEmpty
      · simp [h2]
      · have hens2 : ensureIndexAndNamespace b indexName
            (some (classNamespace idClase)) dim =
            Except.error (mismatchMsg indexName actual dim) := by
          unfold ensureIndexAndNamespace
          rw [hdim]
          exact if_pos hne
        simp [h2, hens2]

/-- Witness for C1: an index introspected at dimension 768 with requested
dimension 1536 makes `ensure_index_and_namespace` raise and leaves an
ingestion run with zero backend calls. -/
theorem dimension_mismatch_fatal_witness :
    ensureIndexAndNamespace ⟨false, some 768, true⟩
        ("learningforlive" : String).data none 1536 =
      Except.error (mismatchMsg ("learningforlive" : String).data 768 1536) ∧
    (processClassFiles ⟨false, some 768, true⟩ TokMode.noTiktoken
        (fun _ _ s => [s]) [("hola mundo" : String).data] []
        ("42" : String).data ("learningforlive" : String).data
        1000 0 256 false 1536 (fun n => natStr n)).2 = noEffects := by
  have h := dimension_mismatch_fatal ⟨false, some 768, true⟩
    ("learningforlive" : String).data none 1536 768 rfl (by decide)
  exact ⟨h.1, h.2.2 _ _ _ _ _ _ _ _ _ _⟩

/-- Re-splitting a space-joined window of `pySplit` tokens gives back exactly
the window's tokens. -/
theorem window_token_count (c : Str) (k step : Nat) :
    ∀ w ∈ slidingWindows (pySplit c) k step,
      pySplit (joinSpace w) = w := by
  intro w hw
  exact pySplit_joinSpace w (fun v hv =>
    pySplit_words c v (slidingWindows_subset (pySplit c) k step w hw v hv))

/-- C3: every chunk `_chunk_texts` produces holds at most `tokensPerChunk`
tokens as counted by the tokenizer that produced it — the whitespace
tokenizer in the two fallback paths unconditionally, and the tiktoken
encoding in the encoder path under the modelling assumption that re-encoding
a decoded token window never yields more tokens than the window held. -/
theorem chunk_token_bound (mode : TokMode)
    (splitText : Nat → Nat → Str → List Str) (texts : List Str)
    (cs ov k : Nat) (_hk : 1 ≤ k)
    (henc : ∀ encode decode, mode = TokMode.encPair encode decode →
      ∀ w : List Nat, (encode (decode w)).length ≤ w.length) :
    ∀ c ∈ chunkTexts mode splitText texts cs ov k,
      tokenCount mode c ≤ k := by
  intro c hc
  unfold chunkTexts at hc
  by_cases ht : texts.isEmpty
  · simp [ht] at hc
  · simp only [ht, Bool.false_eq_true, if_false] at hc
    cases mode with
    | encPair e d =>
        rcases List.mem_flatMap.mp hc with ⟨frag, _, hcf⟩
        by_cases hskip : frag.isEmpty || (pyStrip frag).isEmpty
        · rw [if_pos hskip] at hcf
          simp at hcf
        · rw [if_neg hskip] at hcf
          unfold tokenRechunkEnc at hcf
          by_cases htoks : (e frag).isEmpty
          · simp only [htoks, if_true] at hcf
            simp at hcf
          · simp only [htoks, Bool.false_eq_true, if_false] at hcf
            rcases List.mem_map.mp hcf with ⟨w, hw, rfl⟩
            calc (e (d w)).length ≤ w.length := henc e d rfl w
              _ ≤ k := slidingWindows_size_le (e frag) k _ w hw
    | wsFallback =>
        rcases List.mem_flatMap.mp hc with ⟨frag, _, hcf⟩
        by_cases hskip : frag.isEmpty || (pyStrip frag).isEmpty
        · rw [if_pos hskip] at hcf
          simp at hcf
        · rw [if_neg hskip] at hcf
          unfold tokenRechunkWS at hcf
          rcases List.mem_map.mp hcf with ⟨w, hw, rfl⟩
          show (pySplit (joinSpace w)).length ≤ k
          rw [window_token_count frag k _ w hw]
          exact slidingWindows_size_le (pySplit frag) k _ w hw
    | noTiktoken =>
        rcases List.mem_flatMap.mp hc with ⟨frag, _, hcf⟩
        unfold simpleTokenSplit at hcf
        by_cases hempty : (pySplit frag).isEmpty
        · simp only [hempty, if_true] at hcf
          simp at hcf
        · simp only [hempty, Bool.false_eq_true, if_false] at hcf
          by_cases hshort : (pySplit frag).length ≤ k
          · simp only [hshort, if_true] at hcf
            rcases List.mem_singleton.mp hcf with rfl
            exact hshort
          · simp only [hshort, if_false] at hcf
            rcases List.mem_map.mp hcf with ⟨w, hw, rfl⟩
            show (pySplit (joinSpace w)).length ≤ k
            rw [window_token_count frag k _ w hw]
            exact slidingWindows_size_le (pySplit frag) k _ w hw

/-- Witness for C3: a concrete chunk of a concrete run of the whitespace
fallback tokenizer obeys the bound. -/
theorem chunk_token_bound_witness :
    tokenCount TokMode.wsFallback ("hola mundo" : String).data ≤ 256 :=
  chunk_token_bound TokMode.wsFallback (fun _ _ s => [s])
    [("hola mundo" : String).data] 1000 0 256 (by decide)
    (fun e d he => nomatch he) ("hola mundo" : String).data (by decide)

/-- An in-range window index addresses tokens before the end of the list. -/
theorem pyRange0_index_lt (n step j : Nat) (hstep : 0 < step)
    (h : j < (n + step - 1) / step) : j * step < n := by
  have h2 : (j + 1) * step ≤ n + step - 1 :=
    (Nat.le_div_iff_mul_le hstep).mp (Nat.succ_le_of_lt h)
  have h3 : 1 * step ≤ (j + 1) * step :=
    Nat.mul_le_mul_right step (by omega)
  have h4 : (j + 1) * step = j * step + step := by ring
  omega

/-- C6 (counterexample): with `tokensPerChunk = 8` and `chunkOverlap = 4`
(step `8 - 4 = 4`) a ten-token fragment — which exceeds one window — gives
windows `[0..8), [4..10), [8..10)`: the last consecutive pair shares only the
2-token tail, not `chunkOverlap = 4`; and with `tokensPerChunk = 8`,
`chunkOverlap = 6` (step 2) a five-token fragment fits in one window yet
produces three windows, not one. -/
theorem window_overlap_counterexample :
    slidingWindows (List.range 10) 8 (8 - 4) =
      [[0, 1, 2, 3, 4, 5, 6, 7], [4, 5, 6, 7, 8, 9], [8, 9]] ∧
    (10 : Nat) > 8 ∧
    ((slidingWindows (List.range 10) 8 (8 - 4)).get! 1).drop (8 - 4) =
      (slidingWindows (List.range 10) 8 (8 - 4)).get! 2 ∧
    (((slidingWindows (List.range 10) 8 (8 - 4)).get! 1).drop (8 - 4)).length = 2 ∧
    (2 : Nat) ≠ 4 ∧
    (5 : Nat) ≤ 8 ∧
    (slidingWindows (List.range 5) 8 (8 - 6)).length = 3 := by
  decide

/-- C6 (amended): for `0 ≤ chunkOverlap < tokensPerChunk` and the code's step
`max(tokensPerChunk - chunkOverlap, 1)`, the suffix of each window past the
step is exactly the prefix of the next window of length `chunkOverlap`, and
the number of shared tokens is `min chunkOverlap |next window|` — equal to
`chunkOverlap` whenever the next window holds at least `chunkOverlap`
tokens, smaller for truncated tail windows; and a fragment yields at most
one window exactly when its token count is at most the step (not
`tokensPerChunk`). -/
theorem window_overlap_amended {α : Type} (toks : List α) (k ov step : Nat)
    (hov : ov < k) (hstep : step = max (k - ov) 1) :
    (∀ j (h1 : j < (slidingWindows toks k step).length)
        (h2 : j + 1 < (slidingWindows toks k step).length),
      ((slidingWindows toks k step).get ⟨j, h1⟩).drop step =
        ((slidingWindows toks k step).get ⟨j + 1, h2⟩).take ov ∧
      (((slidingWindows toks k step).get ⟨j, h1⟩).drop step).length =
        min ov ((slidingWindows toks k step).get ⟨j + 1, h2⟩).length) ∧
    ((slidingWindows toks k step).length ≤ 1 ↔ toks.length ≤ step) := by
  have hstep' : step = k - ov := by omega
  have hpos : 0 < step := by omega
  constructor
  · intro j h1 h2
    rw [slidingWindows_get toks k step j h1,
      slidingWindows_get toks k step (j + 1) h2]
    have hkov : k - step = ov := by omega
    constructor
    · rw [List.drop_take, List.drop_drop, hkov]
      rw [List.take_take]
      have hmin : ov ⊓ k = ov := by omega
      rw [hmin]
      have harith : j * step + step = (j + 1) * step := by ring
      rw [harith]
    · have hj1 : (j + 1) * step < toks.length := by
        rw [slidingWindows_length] at h2
        exact pyRange0_index_lt toks.length step (j + 1) hpos h2
      simp only [List.length_drop, List.length_take]
      have harith : j * step + step = (j + 1) * step := by ring
      omega
  · rw [slidingWindows_length]
    constructor
    · intro h
      by_contra hgt
      have : 2 ≤ (toks.length + step - 1) / step := by
        rw [Nat.le_div_iff_mul_le hpos]
        omega
      omega
    · intro h
      have : (toks.length + step - 1) / step < 2 := by
        rw [Nat.div_lt_iff_lt_mul hpos]
        omega
      omega

/-- Witness for C6 (amended) at the counterexample's own input: the shared
segment of the second and third windows is the two-token whole of the third
window, `min 4 2 = 2` tokens. -/
theorem window_overlap_amended_witness :
    ((slidingWindows (List.range 10) 8 4).get ⟨1, by decide⟩).drop 4 =
      ((slidingWindows (List.range 10) 8 4).get ⟨2, by decide⟩).take 4 ∧
    (((slidingWindows (List.range 10) 8 4).get ⟨1, by decide⟩).drop 4).length =
      min 4 ((slidingWindows (List.range 10) 8 4).get ⟨2, by decide⟩).length := by
  have h := window_overlap_amended (List.range 10) 8 4 4 (by decide) (by decide)
  exact h.1 1 (by decide) (by decide)

/-- C7 (counterexample): in the tiktoken-branch whitespace fallback the
non-empty, non-whitespace-only fragment `"a  b"` holds 2 tokens, fewer than
`tokensPerChunk = 256`, yet the single emitted chunk `"a b"` is not equal to
the fragment (the double space is collapsed); and the fragment `"a b c d"`
holds 4 tokens, fewer than `tokensPerChunk = 5`, yet with `chunkOverlap = 3`
the same stage emits two chunks, not one. -/
theorem single_chunk_counterexample :
    tokenRechunkWS ("a  b" : String).data 256 0 = [("a b" : String).data] ∧
    ("a b" : String).data ≠ ("a  b" : String).data ∧
    (pySplit ("a  b" : String).data).length = 2 ∧ (2 : Nat) < 256 ∧
    ("a  b" : String).data ≠ [] ∧ pyStrip ("a  b" : String).data ≠ [] ∧
    tokenRechunkWS ("a b c d" : String).data 5 3 =
      [("a b c d" : String).data, ("c d" : String).data] ∧
    (pySplit ("a b c d" : String).data).length = 4 ∧ (4 : Nat) < 5 := by
  decide

/-- C7 (amended): a fragment whose token count is at most `tokensPerChunk`
yields exactly one chunk equal to the fragment verbatim in
`_simple_token_split`; in the two tiktoken-branch paths a single chunk
requires the token count to be at most the step
`max(tokensPerChunk - chunkOverlap, 1)`, and that chunk is the
space-rejoined token list (the whitespace-normalized fragment) respectively
the decode of the fragment's encoding — not necessarily the verbatim
fragment. -/
theorem single_chunk_amended :
    (∀ (c : Str) (k ov : Nat), pySplit c ≠ [] → (pySplit c).length ≤ k →
      simpleTokenSplit c k ov = [c]) ∧
    (∀ (c : Str) (k ov : Nat), 0 < k → pySplit c ≠ [] →
      (pySplit c).length ≤ max (k - ov) 1 →
      tokenRechunkWS c k ov = [joinSpace (pySplit c)]) ∧
    (∀ (encode : Str → List Nat) (decode : List Nat → Str) (c : Str)
        (k ov : Nat), 0 < k → encode c ≠ [] →
      (encode c).length ≤ max (k - ov) 1 →
      tokenRechunkEnc encode decode c k ov = [decode (encode c)]) := by
  refine ⟨?_, ?_, ?_⟩
  · intro c k ov hne hlen
    unfold simpleTokenSplit
    have h1 : (pySplit c).isEmpty = false := by
      cases h : pySplit c with
      | nil => exact absurd h hne
      | cons a t => rfl
    simp [h1, hlen]
  · intro c k ov hk hne hlen
    have hcount : (pySplit c).length ≤ k := by omega
    simp only [tokenRechunkWS]
    rw [slidingWindows_single (pySplit c) k (max (k - ov) 1) hne hlen hcount]
    rfl
  · intro encode decode c k ov hk hne hlen
    have h1 : (encode c).isEmpty = false := by
      cases h : encode c with
      | nil => exact absurd h hne
      | cons a t => rfl
    have hcount : (encode c).length ≤ k := by omega
    simp only [tokenRechunkEnc, h1, Bool.false_eq_true, if_false]
    rw [slidingWindows_single (encode c) k (max (k - ov) 1) hne hlen hcount]
    rfl

/-- Witness for C7 (amended) at concrete inputs: the verbatim return of
`_simple_token_split` and the normalized single chunk of the
tiktoken-branch fallback. -/
theorem single_chunk_amended_witness :
    simpleTokenSplit ("a  b" : String).data 256 0 = [("a  b" : String).data] ∧
    tokenRechunkWS ("a  b" : String).data 256 0 =
      [joinSpace (pySplit ("a  b" : String).data)] := by
  have h := single_chunk_amended
  exact ⟨h.1 ("a  b" : String).data 256 0 (by decide) (by decide),
    h.2.1 ("a  b" : String).data 256 0 (by decide) (by decide) (by decide)⟩

/-- The accent substitution never produces one of the five accented vowels. -/
theorem stripAccent_not_accented (x : Char) :
    ¬ stripAccent x ∈ (['í', 'á', 'é', 'ó', 'ú'] : List Char) := by
  unfold stripAccent
  split_ifs <;> simp_all

/-- C5 (counterexample): the normalization does not strip every diacritic.
Python's `isalnum` classifies `'ü'` as alphanumeric, the accent-substitution
list covers only `í á é ó ú`, so `'ü'` passes through with its diaeresis
intact rather than being reduced to `'u'`. -/
theorem normalize_namespace_counterexample :
    normalizeNamespace [("ü" : String).data] = ("ü" : String).data ∧
    ("ü" : String).data ≠ ("u" : String).data := by
  decide

/-- C5 (amended): namespace derivation is a deterministic pure function of
the class identifier.  `_normalize_namespace` lowercases, replaces spaces
with underscores, substitutes the five accented vowels `í á é ó ú` (other
diacritics, e.g. `'ü'`, survive because Python's `isalnum` admits them),
removes every character that is neither alphanumeric nor `'_'`/`'-'`, and
returns the fixed name `"default"` when nothing remains; `process_class_files`
derives its namespace by applying this normalization to `"clase_" + id`, so
ingestion and any retrieval reconstructing the namespace from the class id by
the same rule agree. -/
theorem namespace_derivation :
    (∀ (parts : List Str) (c : Char), c ∈ normalizeNamespace parts →
      (pyIsAlnum c || c = '_' || c = '-') = true) ∧
    (∀ (parts : List Str) (c : Char), c ∈ normalizeNamespace parts →
      ¬ c ∈ (['í', 'á', 'é', 'ó', 'ú'] : List Char)) ∧
    (∀ parts : List Str, normalizeNamespace parts ≠ []) ∧
    normalizeNamespace [("  !! " : String).data] = ("default" : String).data ∧
    normalizeNamespace [("Clase de MÚSICA 7-B!" : String).data] =
      ("clase_de_musica_7-b" : String).data ∧
    (∀ id1 id2 : Str, id1 = id2 → classNamespace id1 = classNamespace id2) ∧
    (∀ b mode splitText allTexts sources idClase indexName cs ov k dd dim
        uuidSupply i nsp n,
      (processClassFiles b mode splitText allTexts sources idClase indexName
          cs ov k dd dim uuidSupply).1 =
        Except.ok (ProcOutcome.succeeded i nsp n) →
      nsp = classNamespace idClase ∧ i = indexName) := by
  refine ⟨?_, ?_, ?_, by decide, by decide, fun a b h => congrArg classNamespace h, ?_⟩
  · intro parts c hc
    simp only [normalizeNamespace] at hc
    split at hc
    · revert hc
      revert c
      decide
    · exact (List.mem_filter.mp hc).2
  · intro parts c hc
    simp only [normalizeNamespace] at hc
    split at hc
    · revert hc
      revert c
      decide
    · have hrep := (List.mem_filter.mp hc).1
      rcases List.mem_map.mp hrep with ⟨x, _, rfl⟩
      exact stripAccent_not_accented x
  · intro parts
    simp only [normalizeNamespace]
    split
    · decide
    · next h =>
        intro hnil
        rw [hnil] at h
        simp at h
  · intro b mode splitText allTexts sources idClase indexName cs ov k dd dim
      uuidSupply i nsp n h
    unfold processClassFiles at h
    by_cases h1 : allTexts.isEmpty
    · simp [h1] at h
    · simp only [h1, Bool.false_eq_true, if_false] at h
      by_cases h2 : (chunkTexts mode splitText allTexts cs ov k).isEmpty
      · simp [h2] at h
      · simp only [h2, Bool.false_eq_true, if_false] at h
        cases hE : ensureIndexAndNamespace b indexName
            (some (classNamespace idClase)) dim with
        | error e =>
            rw [hE] at h
            simp at h
        | ok u =>
            rw [hE] at h
            simp only [Except.ok.injEq, ProcOutcome.succeeded.injEq] at h
            exact ⟨h.2.1.symm, h.1.symm⟩

/-- Witness for C5 (amended) at concrete inputs: determinism at class id
`"42"`, and a concrete successful ingestion run whose reported namespace is
exactly `classNamespace "42" = "clase_42"`. -/
theorem namespace_derivation_witness :
    classNamespace ("42" : String).data = classNamespace ("42" : String).data ∧
    ("clase_42" : String).data = classNamespace ("42" : String).data := by
  have h := namespace_derivation
  refine ⟨h.2.2.2.2.2.1 _ _ rfl, ?_⟩
  exact (h.2.2.2.2.2.2 ⟨false, none, true⟩ TokMode.noTiktoken
    (fun _ _ s => [s]) [("hola" : String).data] [] ("42" : String).data
    ("idx" : String).data 1000 0 256 false 1536 (fun n => natStr n)
    ("idx" : String).data ("clase_42" : String).data 1 (by rfl)).1

end Rag
